import Mathlib

/-!
Verification of the conversation-continuity workflow of the PaLM2 Slack
chatbot (src/app.py).  The pipeline `generate_response` and the event
handler `handle_incoming_message` are embedded shallowly: every external
call (blob download, chat-model completion, Slack post, blob save,
keyword derivation, audit log) is recorded as an `Event` in a trace, the
blob store is an explicit association list, and the possibility that an
external call raises an exception is an oracle in an `Env` record.  The
helper modules `modules/gc_utils` and `modules/utils` are not part of the
sources, so their behaviour (pickle serialization, markdown removal) is
modelled from the specification where noted.
-/

namespace PalmChat

/-- One entry of the Vertex AI chat history (`chat._message_history` holds
`ChatMessage` objects with an author and a content string). -/
structure ChatMessage where
  author : String
  content : String
deriving DecidableEq, Repr

/-- The persisted conversation record.  `app.py` stores a dict
`{"metadata": ..., "historical_chat": ...}` (written by
`gc_utils.store_historical_chat_to_gcs`, read back at line 119-120). -/
structure Record where
  metadata : String
  historical_chat : List ChatMessage
deriving DecidableEq, Repr

/-- Serialized bytes of a pickled record, modelled as a token list. -/
abbrev PBytes := List String

/-- Flatten a chat history into serialized tokens (author, content pairs). -/
def encodeHistory : List ChatMessage → List String
  | [] => []
  | m :: rest => m.author :: m.content :: encodeHistory rest

/-- Inverse of `encodeHistory`; fails on an odd-length token list. -/
def decodeHistory : List String → Option (List ChatMessage)
  | [] => some []
  | [_] => none
  | a :: c :: rest => (decodeHistory rest).map (fun h => ⟨a, c⟩ :: h)

/-- Modelled from the spec: `gc_utils.store_historical_chat_to_gcs` is not
under src/; per §6 the blob content is the serialized
`{metadata, historical_chat}` structure (Python `pickle.dumps`).  Modelled
as a metadata token followed by the flattened history. -/
def pickleDumps (r : Record) : PBytes :=
  r.metadata :: encodeHistory r.historical_chat

/-- Modelled from the spec: Python `pickle.loads` as used at app.py line
119; deserialization of a well-formed blob recovers the record, malformed
bytes fail. -/
def pickleLoads : PBytes → Option Record
  | [] => none
  | md :: rest => (decodeHistory rest).map (fun h => ⟨md, h⟩)

/-- The blob store: association list from blob name to bytes, newest
binding first (lookup sees the latest overwrite). -/
abbrev Store := List (String × PBytes)

/-- Overwrite semantics of a GCS blob upload: the new bytes shadow any
previous blob of the same name. -/
def storeSave (st : Store) (name : String) (bytes : PBytes) : Store :=
  (name, bytes) :: st

/-- Python `str.strip(chars)`: drop characters of `chars` from both ends. -/
def pyStrip (chars : List Char) (s : String) : String :=
  ⟨((s.data.dropWhile (fun c => chars.contains c)).reverse.dropWhile
      (fun c => chars.contains c)).reverse⟩

/-- The characters stripped at app.py line 132: `strip(" \n")`. -/
def STRIP_SPACE_LF : List Char := [' ', '\n']

/-- ASCII whitespace as stripped by Python's argumentless `str.strip()`;
used only to state the spec's phrase "trimmed of whitespace". -/
def PY_WHITESPACE : List Char := [' ', '\t', '\n', '\r', Char.ofNat 11, Char.ofNat 12]

/-- "Generated text trimmed of whitespace" in the spec's words. -/
def trimWhitespace (s : String) : String := pyStrip PY_WHITESPACE s

/-- Modelled from the spec: `modules/utils.remove_markdown` is not under
src/; §4.3 says it removes markdown emphasis/heading syntax unsupported by
Slack and is a pure function.  Modelled as dropping the marker characters. -/
def remove_markdown (s : String) : String :=
  ⟨s.data.filter (fun c => !(c == '*' || c == '#' || c == '_'))⟩

/-- The fixed policy-violation notice substituted at app.py line 135. -/
def POLICY_NOTICE : String :=
  "入力または出力が Google のポリシーに違反している可能性があるため、出力がブロックされています。プロンプトの言い換えや、パラメータ設定の調整を試してください。"

/-- app.py line 27. -/
def HISTORICAL_CHAT_BUCKET_NAME : String := "historical-chat-object"

/-- Python f-string interpolation of a possibly-`None` value
(`f"{conversation_thread}.pkl"` renders `None` as the text "None"). -/
def pyFString : Option String → String
  | none => "None"
  | some s => s

/-- The result of `chat.send_message`: generated text, safety block flag,
and the updated `chat._message_history` (app.py lines 128-132, 145). -/
structure CompletionResponse where
  text : String
  is_blocked : Bool
  message_history : List ChatMessage
deriving DecidableEq, Repr

/-- Exceptions that the pipeline's external calls can raise (§7 taxonomy,
plus deserialization failure of a corrupt blob). -/
inductive PipelineError where
  | storageUnavailable
  | deserializeError
  | completionServiceError
  | deliveryError
  | keywordError
  | logError
deriving DecidableEq, Repr

/-- Oracles for the external collaborators: each decides whether its call
succeeds and, for the model calls, what it returns. -/
structure Env where
  downloadFails : Bool
  model : List ChatMessage → Option String → Except Unit CompletionResponse
  postFails : Bool
  saveFails : Bool
  keyword : Option String → Except Unit String
  logFails : Bool

/-- Trace of external calls made by one run of `generate_response`. -/
inductive Event where
  | download (bucket : String) (blobName : String)
  | modelCall (history : List ChatMessage) (prompt : Option String)
  | post (channel : Option String) (thread_ts : Option String) (text : String)
  | save (bucket : String) (blobName : String) (metadata : String)
      (history : List ChatMessage)
  | keywordCall (prompt : Option String)
  | auditLog (user : Option String) (prompt : Option String)
      (payload : String) (keyword : String)
deriving DecidableEq, Repr

/-- Outcome of one run: the calls made, the store afterwards, and the
uncaught exception if one aborted the pipeline. -/
structure RunResult where
  trace : List Event
  store : Store
  error : Option PipelineError
deriving DecidableEq, Repr

/-- Payload selection (app.py lines 130-138): if the response is blocked
or its text strips to nothing under `strip(" \n")`, the fixed notice is
substituted; otherwise markdown is removed from the model's text. -/
def compute_payload (response : CompletionResponse) : String :=
  let is_blocked := response.is_blocked
  let is_empty_response :=
    decide ((pyStrip STRIP_SPACE_LF response.text).length < 1)
  if is_blocked || is_empty_response then POLICY_NOTICE
  else remove_markdown response.text

/-- History loading (app.py lines 111-120): if the blob exists its bytes
are unpickled and the `historical_chat` field taken, otherwise the
history stays `[]`. -/
def loadHistory : Option PBytes → Except PipelineError (List ChatMessage)
  | none => Except.ok []
  | some bytes =>
    match pickleLoads bytes with
    | some historical_chat => Except.ok historical_chat.historical_chat
    | none => Except.error PipelineError.deserializeError

/-- Shallow embedding of `generate_response` (app.py lines 81-153).  Each
step appends its call to the trace; a failing step returns the trace so
far with the exception, leaving later steps unexecuted. -/
def generate_response (env : Env) (store : Store)
    (ts conversation_thread user_id channel_id prompt : Option String) :
    RunResult :=
  -- line 105: historical_chat_blob_name = f"{conversation_thread}.pkl"
  let historical_chat_blob_name := pyFString conversation_thread ++ ".pkl"
  let t0 : List Event :=
    [Event.download HISTORICAL_CHAT_BUCKET_NAME historical_chat_blob_name]
  -- lines 108-111: fetch the blob handle, check existence
  if env.downloadFails then
    { trace := t0, store := store,
      error := some PipelineError.storageUnavailable }
  else
    let blob := store.lookup historical_chat_blob_name
    let is_existing_thread := blob.isSome
    -- lines 113-120: download and unpickle the prior history if present
    match loadHistory blob with
    | Except.error e => { trace := t0, store := store, error := some e }
    | Except.ok message_history =>
      let t1 := t0 ++ [Event.modelCall message_history prompt]
      -- lines 122-128: start_chat with the history, send the prompt
      match env.model message_history prompt with
      | Except.error _ =>
        { trace := t1, store := store,
          error := some PipelineError.completionServiceError }
      | Except.ok response =>
        -- lines 130-138: blocked / empty check and payload selection
        let payload := compute_payload response
        -- line 141: client.chat_postMessage(channel, thread_ts=ts, text)
        let t2 := t1 ++ [Event.post channel_id ts payload]
        if env.postFails then
          { trace := t2, store := store,
            error := some PipelineError.deliveryError }
        else
          -- lines 143-148: store_historical_chat_to_gcs with the real
          -- chat._message_history, overwriting the same blob name
          let t3 := t2 ++ [Event.save HISTORICAL_CHAT_BUCKET_NAME
            historical_chat_blob_name "dummy_metadata_chat"
            response.message_history]
          if env.saveFails then
            { trace := t3, store := store,
              error := some PipelineError.storageUnavailable }
          else
            let store2 := storeSave store historical_chat_blob_name
              (pickleDumps { metadata := "dummy_metadata_chat",
                             historical_chat := response.message_history })
            -- lines 150-153: audit branch only for a brand-new thread
            if is_existing_thread then
              { trace := t3, store := store2, error := none }
            else
              let t4 := t3 ++ [Event.keywordCall prompt]
              match env.keyword prompt with
              | Except.error _ =>
                { trace := t4, store := store2,
                  error := some PipelineError.keywordError }
              | Except.ok keyword =>
                let t5 := t4 ++ [Event.auditLog user_id prompt payload keyword]
                if env.logFails then
                  { trace := t5, store := store2,
                    error := some PipelineError.logError }
                else
                  { trace := t5, store := store2, error := none }

/-- The inbound Slack event payload; `payload.get(...)` yields `None` for
a missing key, so every field is optional. -/
structure SlackPayload where
  channel : Option String
  user : Option String
  text : Option String
  ts : Option String
  thread_ts : Option String
deriving DecidableEq, Repr

/-- app.py line 171: `conversation_thread = ts if thread_ts is None else
thread_ts`. -/
def conversation_thread_of (ts thread_ts : Option String) : Option String :=
  match thread_ts with
  | none => ts
  | some t => some t

/-- Shallow embedding of `handle_incoming_message` (app.py lines 156-173):
extract the payload fields and invoke the pipeline unconditionally. -/
def handle_incoming_message (env : Env) (store : Store)
    (payload : SlackPayload) : RunResult :=
  let channel_id := payload.channel
  let user_id := payload.user
  let prompt := payload.text
  let ts := payload.ts
  let thread_ts := payload.thread_ts
  let conversation_thread := conversation_thread_of ts thread_ts
  generate_response env store ts conversation_thread user_id channel_id prompt

/-- Per-turn inputs of one thread's lifetime (the conversation thread
identifier is shared, everything else may vary per message). -/
structure TurnInput where
  env : Env
  ts : Option String
  user_id : Option String
  channel_id : Option String
  prompt : Option String

/-- Run the pipeline for each turn of a thread in order, threading the
blob store through. -/
def runLifetime (conversation_thread : Option String) (store : Store) :
    List TurnInput → List RunResult
  | [] => []
  | t :: rest =>
    let r := generate_response t.env store t.ts conversation_thread
      t.user_id t.channel_id t.prompt
    r :: runLifetime conversation_thread r.store rest

/-- Recognizer for the audit-log event. -/
def isAuditLog : Event → Bool
  | Event.auditLog _ _ _ _ => true
  | _ => false

/-- Number of audit-log entries emitted in a trace. -/
def countAudits (trace : List Event) : Nat :=
  trace.countP isAuditLog

/-- Total audit-log entries over a thread lifetime. -/
def lifetimeAudits (rs : List RunResult) : Nat :=
  (rs.map (fun r => countAudits r.trace)).sum

/-- A fully well-behaved environment: no external call fails and the
model echoes the prompt into the history. -/
def okEnv : Env :=
  { downloadFails := false
    model := fun h p => Except.ok
      { text := "hello *world*"
        is_blocked := false
        message_history := h ++ [⟨"user", pyFString p⟩, ⟨"bot", "hello"⟩] }
    postFails := false
    saveFails := false
    keyword := fun _ => Except.ok "kw"
    logFails := false }

/-- Environment whose model flags every completion as policy-blocked but
produces the same updated history as `okEnv`. -/
def blockedEnv : Env :=
  { okEnv with
    model := fun h p => Except.ok
      { text := "raw blocked text"
        is_blocked := true
        message_history := h ++ [⟨"user", pyFString p⟩, ⟨"bot", "hello"⟩] } }

/-- Environment whose model returns a lone tab character (whitespace that
`strip(" \n")` does not remove). -/
def tabEnv : Env :=
  { okEnv with
    model := fun h _ => Except.ok
      { text := "\t", is_blocked := false, message_history := h } }

/-- Environment whose model returns text made only of spaces and a
newline. -/
def spaceEnv : Env :=
  { okEnv with
    model := fun h _ => Except.ok
      { text := " \n ", is_blocked := false, message_history := h } }

/-- Environment where the keyword-derivation call raises. -/
def kwFailEnv : Env :=
  { okEnv with keyword := fun _ => Except.error () }

/-- Environment where the history save raises. -/
def saveFailEnv : Env :=
  { okEnv with saveFails := true }

/-- Environment where the blob download raises. -/
def dlFailEnv : Env :=
  { okEnv with downloadFails := true }

/-- Environment where the completion-service call raises. -/
def modelFailEnv : Env :=
  { okEnv with model := fun _ _ => Except.error () }

/-- Environment where the platform post raises. -/
def postFailEnv : Env :=
  { okEnv with postFails := true }

/-- Environment where the structured log write raises. -/
def logFailEnv : Env :=
  { okEnv with logFails := true }

/-- A concrete fully successful run on a fresh thread. -/
def demoOkRun : RunResult :=
  generate_response okEnv [] (some "100") (some "100") (some "U1")
    (some "C1") (some "hi")

/-- The same run against the blocking model. -/
def demoBlockedRun : RunResult :=
  generate_response blockedEnv [] (some "100") (some "100") (some "U1")
    (some "C1") (some "hi")

/-- First turn of a thread whose save step fails. -/
def cxTurn1 : TurnInput := ⟨saveFailEnv, some "100", some "U1", some "C1", some "hi"⟩

/-- Second turn of the same thread, fully successful. -/
def cxTurn2 : TurnInput := ⟨okEnv, some "101", some "U1", some "C1", some "follow"⟩

/-- First turn of a fully successful thread lifetime. -/
def wTurn1 : TurnInput := ⟨okEnv, some "100", some "U1", some "C1", some "hi"⟩

/-- Second turn of that lifetime. -/
def wTurn2 : TurnInput := ⟨okEnv, some "101", some "U1", some "C1", some "follow"⟩

/-- An inbound event all of whose payload fields are missing. -/
def noneP : SlackPayload := ⟨none, none, none, none, none⟩

end PalmChat

namespace PalmChat

/-! ### Basic lemmas about serialization and the store -/

/-- Decoding inverts encoding of a chat history. -/
theorem decodeHistory_encodeHistory (l : List ChatMessage) :
    decodeHistory (encodeHistory l) = some l := by
  induction l with
  | nil => rfl
  | cons m rest ih => simp [encodeHistory, decodeHistory, ih]

/-- Pickle round-trip: deserializing a serialized record recovers it. -/
theorem pickleLoads_pickleDumps (r : Record) :
    pickleLoads (pickleDumps r) = some r := by
  simp [pickleDumps, pickleLoads, decodeHistory_encodeHistory r.historical_chat]

/-- A freshly saved blob is found under its own name. -/
theorem lookup_storeSave (st : Store) (name : String) (bytes : PBytes) :
    (storeSave st name bytes).lookup name = some bytes := by
  simp [storeSave, List.lookup]

/-- Loading the history of a just-saved record yields its history. -/
theorem loadHistory_saved (st : Store) (name : String) (r : Record) :
    loadHistory ((storeSave st name (pickleDumps r)).lookup name) =
      Except.ok r.historical_chat := by
  rw [lookup_storeSave]
  simp [loadHistory, pickleLoads_pickleDumps]

/-- A blocked response always yields the fixed notice as payload. -/
theorem compute_payload_blocked (r : CompletionResponse)
    (h : r.is_blocked = true) : compute_payload r = POLICY_NOTICE := by
  simp [compute_payload, h]

/-- A response whose text strips (under `strip(" \n")`) to nothing yields
the fixed notice as payload. -/
theorem compute_payload_empty (r : CompletionResponse)
    (h : (pyStrip STRIP_SPACE_LF r.text).length = 0) :
    compute_payload r = POLICY_NOTICE := by
  simp [compute_payload, h]

/-- An unblocked response with non-stripping-empty text is dispatched as
its markdown-stripped self. -/
theorem compute_payload_clean (r : CompletionResponse)
    (hb : r.is_blocked = false)
    (hne : (pyStrip STRIP_SPACE_LF r.text).length ≠ 0) :
    compute_payload r = remove_markdown r.text := by
  simp [compute_payload, hb, Nat.lt_one_iff, hne]

/-! ### Structural lemmas about one pipeline run -/

/-- Every run begins by fetching the thread's blob, whose name is the
thread identifier plus the `.pkl` extension. -/
theorem download_mem (env : Env) (store : Store)
    (ts thread u c p : Option String) :
    Event.download HISTORICAL_CHAT_BUCKET_NAME (pyFString thread ++ ".pkl") ∈
      (generate_response env store ts thread u c p).trace := by
  unfold generate_response
  by_cases hdl : env.downloadFails = true
  · simp [hdl]
  · simp only [hdl, if_false]
    cases hl : loadHistory (store.lookup (pyFString thread ++ ".pkl")) with
    | error e => simp
    | ok hist =>
      cases hm : env.model hist p with
      | error e => simp [hm]
      | ok resp =>
        simp only [hm]
        repeat' split
        all_goals simp

/-- If the download succeeds and the history decodes, the model is called
with exactly that history, whatever it then returns. -/
theorem modelCall_mem (env : Env) (store : Store)
    (ts thread u c p : Option String) (hist : List ChatMessage)
    (hdl : env.downloadFails = false)
    (hload : loadHistory (store.lookup (pyFString thread ++ ".pkl")) =
      Except.ok hist) :
    Event.modelCall hist p ∈
      (generate_response env store ts thread u c p).trace := by
  unfold generate_response
  simp only [hdl, Bool.false_eq_true, if_false, hload]
  repeat' split
  all_goals simp

/-- If the model call succeeds, the platform post carries the computed
payload, whatever happens afterwards. -/
theorem post_mem (env : Env) (store : Store)
    (ts thread u c p : Option String) (hist : List ChatMessage)
    (resp : CompletionResponse)
    (hdl : env.downloadFails = false)
    (hload : loadHistory (store.lookup (pyFString thread ++ ".pkl")) =
      Except.ok hist)
    (hmodel : env.model hist p = Except.ok resp) :
    Event.post c ts (compute_payload resp) ∈
      (generate_response env store ts thread u c p).trace := by
  unfold generate_response
  simp only [hdl, Bool.false_eq_true, if_false, hload, hmodel]
  repeat' split
  all_goals simp

/-- When every step up to the save succeeds, the run saves the model's
updated history, pickled with the dummy metadata, under the thread's blob
name, and the save event carries exactly that history. -/
theorem save_spec (env : Env) (store : Store)
    (ts thread u c p : Option String) (hist : List ChatMessage)
    (resp : CompletionResponse)
    (hdl : env.downloadFails = false)
    (hload : loadHistory (store.lookup (pyFString thread ++ ".pkl")) =
      Except.ok hist)
    (hmodel : env.model hist p = Except.ok resp)
    (hpost : env.postFails = false)
    (hsave : env.saveFails = false) :
    (generate_response env store ts thread u c p).store =
      storeSave store (pyFString thread ++ ".pkl")
        (pickleDumps ⟨"dummy_metadata_chat", resp.message_history⟩) ∧
    Event.save HISTORICAL_CHAT_BUCKET_NAME (pyFString thread ++ ".pkl")
        "dummy_metadata_chat" resp.message_history ∈
      (generate_response env store ts thread u c p).trace := by
  unfold generate_response
  simp only [hdl, hpost, hsave, Bool.false_eq_true, if_false, hload, hmodel]
  repeat' split
  all_goals simp

/-- A run on a thread that already has a record never reaches the audit
branch, and the record stays present, whatever else happens. -/
theorem audits_existing (env : Env) (store : Store)
    (ts thread u c p : Option String)
    (hex : (store.lookup (pyFString thread ++ ".pkl")).isSome = true) :
    countAudits (generate_response env store ts thread u c p).trace = 0 ∧
    (((generate_response env store ts thread u c p).store.lookup
        (pyFString thread ++ ".pkl")).isSome = true) := by
  unfold generate_response
  simp only [hex]
  repeat' split
  all_goals simp_all [countAudits, isAuditLog, lookup_storeSave]

/-- A fully successful first run on a fresh thread emits exactly one
audit entry, finishes without error, and leaves the record present. -/
theorem audits_fresh (env : Env) (store : Store)
    (ts thread u c p : Option String) (resp : CompletionResponse)
    (kw : String)
    (hfresh : store.lookup (pyFString thread ++ ".pkl") = none)
    (hdl : env.downloadFails = false)
    (hmodel : env.model [] p = Except.ok resp)
    (hpost : env.postFails = false)
    (hsave : env.saveFails = false)
    (hkw : env.keyword p = Except.ok kw)
    (hlog : env.logFails = false) :
    countAudits (generate_response env store ts thread u c p).trace = 1 ∧
    (generate_response env store ts thread u c p).error = none ∧
    (((generate_response env store ts thread u c p).store.lookup
        (pyFString thread ++ ".pkl")).isSome = true) := by
  unfold generate_response
  simp only [hfresh, hdl, hpost, hsave, hlog, Bool.false_eq_true, if_false,
    loadHistory, hmodel, hkw, Option.isSome_none]
  simp [countAudits, isAuditLog, lookup_storeSave, List.countP_cons]

/-- Once the thread's record exists, no number of further turns (however
they succeed or fail) ever produces an audit entry. -/
theorem lifetime_audits_existing (thread : Option String)
    (turns : List TurnInput) :
    ∀ store : Store,
      (store.lookup (pyFString thread ++ ".pkl")).isSome = true →
      lifetimeAudits (runLifetime thread store turns) = 0 := by
  induction turns with
  | nil => intro store _; simp [runLifetime, lifetimeAudits]
  | cons t rest ih =>
    intro store hex
    have h := audits_existing t.env store t.ts thread t.user_id
      t.channel_id t.prompt hex
    simp only [runLifetime, lifetimeAudits, List.map_cons, List.sum_cons]
    rw [h.1]
    simpa [lifetimeAudits] using ih _ h.2

end PalmChat

/-! ### Claim theorems -/

namespace PalmChat

/-- Claim C1: for every thread with a prior persisted record, the message
history passed to the chat model when handling a new event in that thread
equals exactly the history previously persisted for it (deserialization
of the stored blob round-trips the serialized history). -/
theorem C1_history_roundtrip (env₁ env₂ : Env) (store : Store)
    (ts₁ ts₂ thread u₁ u₂ c₁ c₂ p₁ p₂ : Option String)
    (hist : List ChatMessage) (resp : CompletionResponse)
    (hdl₁ : env₁.downloadFails = false)
    (hload₁ : loadHistory (store.lookup (pyFString thread ++ ".pkl")) =
      Except.ok hist)
    (hmodel₁ : env₁.model hist p₁ = Except.ok resp)
    (hpost₁ : env₁.postFails = false)
    (hsave₁ : env₁.saveFails = false)
    (hdl₂ : env₂.downloadFails = false) :
    Event.modelCall resp.message_history p₂ ∈
      (generate_response env₂
        (generate_response env₁ store ts₁ thread u₁ c₁ p₁).store
        ts₂ thread u₂ c₂ p₂).trace := by
  have s₁ := save_spec env₁ store ts₁ thread u₁ c₁ p₁ hist resp
    hdl₁ hload₁ hmodel₁ hpost₁ hsave₁
  apply modelCall_mem env₂ _ ts₂ thread u₂ c₂ p₂ resp.message_history hdl₂
  rw [s₁.1]
  exact loadHistory_saved store _ ⟨"dummy_metadata_chat", resp.message_history⟩

theorem C1_witness :
    Event.modelCall [⟨"user", "hi"⟩, ⟨"bot", "hello"⟩] (some "next") ∈
      (generate_response okEnv demoOkRun.store
        (some "101") (some "100") (some "U1") (some "C1") (some "next")).trace :=
  C1_history_roundtrip okEnv okEnv [] (some "100") (some "101") (some "100")
    (some "U1") (some "U1") (some "C1") (some "C1") (some "hi") (some "next")
    [] ⟨"hello *world*", false, [⟨"user", "hi"⟩, ⟨"bot", "hello"⟩]⟩
    rfl rfl rfl rfl rfl rfl

/-- Claim C2: for every thread with no prior persisted record, the load
step reports an empty (not-found) history rather than failing, and the
model is called with the empty history. -/
theorem C2_fresh_thread_empty_history (env : Env) (store : Store)
    (ts thread u c p : Option String)
    (hfresh : store.lookup (pyFString thread ++ ".pkl") = none)
    (hdl : env.downloadFails = false) :
    loadHistory (store.lookup (pyFString thread ++ ".pkl")) = Except.ok [] ∧
    Event.modelCall [] p ∈
      (generate_response env store ts thread u c p).trace := by
  have hl : loadHistory (store.lookup (pyFString thread ++ ".pkl")) =
      Except.ok [] := by rw [hfresh]; rfl
  exact ⟨hl, modelCall_mem env store ts thread u c p [] hdl hl⟩

theorem C2_witness :
    loadHistory (([] : Store).lookup (pyFString (some "100") ++ ".pkl")) =
      Except.ok [] ∧
    Event.modelCall [] (some "hi") ∈ demoOkRun.trace :=
  C2_fresh_thread_empty_history okEnv [] (some "100") (some "100")
    (some "U1") (some "C1") (some "hi") rfl rfl

/-- Claim C3: whenever the completion's policy-block flag is set, the
text dispatched to the platform is the fixed policy-violation notice
verbatim, regardless of the model's raw generated text. -/
theorem C3_blocked_dispatches_notice (env : Env) (store : Store)
    (ts thread u c p : Option String) (hist : List ChatMessage)
    (resp : CompletionResponse)
    (hdl : env.downloadFails = false)
    (hload : loadHistory (store.lookup (pyFString thread ++ ".pkl")) =
      Except.ok hist)
    (hmodel : env.model hist p = Except.ok resp)
    (hblocked : resp.is_blocked = true) :
    Event.post c ts POLICY_NOTICE ∈
      (generate_response env store ts thread u c p).trace := by
  have h := post_mem env store ts thread u c p hist resp hdl hload hmodel
  rwa [compute_payload_blocked resp hblocked] at h

theorem C3_witness :
    Event.post (some "C1") (some "100") POLICY_NOTICE ∈ demoBlockedRun.trace :=
  C3_blocked_dispatches_notice blockedEnv [] (some "100") (some "100")
    (some "U1") (some "C1") (some "hi") []
    ⟨"raw blocked text", true, [⟨"user", "hi"⟩, ⟨"bot", "hello"⟩]⟩
    rfl rfl rfl rfl

end PalmChat

namespace PalmChat

/-- Claim C4 as stated is false: the code strips only spaces and newlines
(`strip(" \n")`), not all whitespace.  A completion whose text is a lone
tab is empty after trimming whitespace, yet the dispatched text is the
tab itself (markdown-stripped), not the policy notice. -/
theorem C4_counterexample :
    (trimWhitespace "\t").length = 0 ∧
    Event.post (some "C1") (some "100") "\t" ∈
      (generate_response tabEnv [] (some "100") (some "100") (some "U1")
        (some "C1") (some "hi")).trace ∧
    Event.post (some "C1") (some "100") POLICY_NOTICE ∉
      (generate_response tabEnv [] (some "100") (some "100") (some "U1")
        (some "C1") (some "hi")).trace := by
  decide

/-- Claim C4 (amended): for every completion response whose generated
text, after stripping spaces and newline characters from both ends
(Python `strip(" \n")`), has length 0, the dispatched text is the fixed
policy-violation notice. -/
theorem C4_space_newline_strip (env : Env) (store : Store)
    (ts thread u c p : Option String) (hist : List ChatMessage)
    (resp : CompletionResponse)
    (hdl : env.downloadFails = false)
    (hload : loadHistory (store.lookup (pyFString thread ++ ".pkl")) =
      Except.ok hist)
    (hmodel : env.model hist p = Except.ok resp)
    (hempty : (pyStrip STRIP_SPACE_LF resp.text).length = 0) :
    Event.post c ts POLICY_NOTICE ∈
      (generate_response env store ts thread u c p).trace := by
  have h := post_mem env store ts thread u c p hist resp hdl hload hmodel
  rwa [compute_payload_empty resp hempty] at h

theorem C4_witness :
    Event.post (some "C1") (some "100") POLICY_NOTICE ∈
      (generate_response spaceEnv [] (some "100") (some "100") (some "U1")
        (some "C1") (some "hi")).trace :=
  C4_space_newline_strip spaceEnv [] (some "100") (some "100") (some "U1")
    (some "C1") (some "hi") [] ⟨" \n ", false, []⟩ rfl rfl rfl (by decide)

/-- Claim C5: when the policy notice is substituted for the payload, the
persisted record still holds the model's real updated history: two runs
whose model responses carry the same updated history — one blocked (so
the notice is dispatched), one clean (so the model text is dispatched) —
persist identical records. -/
theorem C5_substitution_frame (env₁ env₂ : Env) (store : Store)
    (ts thread u c p : Option String) (hist : List ChatMessage)
    (resp₁ resp₂ : CompletionResponse)
    (hdl₁ : env₁.downloadFails = false)
    (hload : loadHistory (store.lookup (pyFString thread ++ ".pkl")) =
      Except.ok hist)
    (hmodel₁ : env₁.model hist p = Except.ok resp₁)
    (hpost₁ : env₁.postFails = false)
    (hsave₁ : env₁.saveFails = false)
    (hdl₂ : env₂.downloadFails = false)
    (hmodel₂ : env₂.model hist p = Except.ok resp₂)
    (hpost₂ : env₂.postFails = false)
    (hsave₂ : env₂.saveFails = false)
    (hb₁ : resp₁.is_blocked = true)
    (hb₂ : resp₂.is_blocked = false)
    (hne₂ : (pyStrip STRIP_SPACE_LF resp₂.text).length ≠ 0)
    (hhist : resp₁.message_history = resp₂.message_history) :
    (generate_response env₁ store ts thread u c p).store =
      (generate_response env₂ store ts thread u c p).store ∧
    Event.post c ts POLICY_NOTICE ∈
      (generate_response env₁ store ts thread u c p).trace ∧
    Event.post c ts (remove_markdown resp₂.text) ∈
      (generate_response env₂ store ts thread u c p).trace ∧
    Event.save HISTORICAL_CHAT_BUCKET_NAME (pyFString thread ++ ".pkl")
        "dummy_metadata_chat" resp₁.message_history ∈
      (generate_response env₁ store ts thread u c p).trace := by
  have s₁ := save_spec env₁ store ts thread u c p hist resp₁
    hdl₁ hload hmodel₁ hpost₁ hsave₁
  have s₂ := save_spec env₂ store ts thread u c p hist resp₂
    hdl₂ hload hmodel₂ hpost₂ hsave₂
  refine ⟨?_, ?_, ?_, s₁.2⟩
  · rw [s₁.1, s₂.1, hhist]
  · have h := post_mem env₁ store ts thread u c p hist resp₁ hdl₁ hload hmodel₁
    rwa [compute_payload_blocked resp₁ hb₁] at h
  · have h := post_mem env₂ store ts thread u c p hist resp₂ hdl₂ hload hmodel₂
    rwa [compute_payload_clean resp₂ hb₂ hne₂] at h

theorem C5_witness :
    demoBlockedRun.store = demoOkRun.store ∧
    Event.post (some "C1") (some "100") POLICY_NOTICE ∈ demoBlockedRun.trace ∧
    Event.post (some "C1") (some "100") (remove_markdown "hello *world*") ∈
      demoOkRun.trace ∧
    Event.save HISTORICAL_CHAT_BUCKET_NAME (pyFString (some "100") ++ ".pkl")
        "dummy_metadata_chat" [⟨"user", "hi"⟩, ⟨"bot", "hello"⟩] ∈
      demoBlockedRun.trace :=
  C5_substitution_frame blockedEnv okEnv [] (some "100") (some "100")
    (some "U1") (some "C1") (some "hi") []
    ⟨"raw blocked text", true, [⟨"user", "hi"⟩, ⟨"bot", "hello"⟩]⟩
    ⟨"hello *world*", false, [⟨"user", "hi"⟩, ⟨"bot", "hello"⟩]⟩
    rfl rfl rfl rfl rfl rfl rfl rfl rfl rfl rfl (by decide) rfl

end PalmChat

namespace PalmChat

/-- Claim C6 as stated is false: if the first turn's pipeline aborts
after the dispatch but before the save (here the save fails), no audit
entry is logged on the thread's first turn, and the audit branch then
runs on the thread's second turn — a subsequent turn — once a run finds
the record still missing. -/
theorem C6_counterexample :
    ([] : Store).lookup "100.pkl" = none ∧
    (runLifetime (some "100") [] [cxTurn1, cxTurn2]).map
      (fun r => countAudits r.trace) = [0, 1] := by
  decide

/-- Claim C6 (amended): provided the thread's first turn completes
without error, the audit branch executes exactly once over the thread's
lifetime — on that first turn, where the load found no record — and on
no later turn, whatever the later turns do. -/
theorem C6_first_turn_audit (store : Store) (thread : Option String)
    (t0 : TurnInput) (rest : List TurnInput)
    (resp : CompletionResponse) (kw : String)
    (hfresh : store.lookup (pyFString thread ++ ".pkl") = none)
    (hdl : t0.env.downloadFails = false)
    (hmodel : t0.env.model [] t0.prompt = Except.ok resp)
    (hpost : t0.env.postFails = false)
    (hsave : t0.env.saveFails = false)
    (hkw : t0.env.keyword t0.prompt = Except.ok kw)
    (hlog : t0.env.logFails = false) :
    countAudits (generate_response t0.env store t0.ts thread t0.user_id
      t0.channel_id t0.prompt).trace = 1 ∧
    lifetimeAudits (runLifetime thread store (t0 :: rest)) = 1 := by
  have h := audits_fresh t0.env store t0.ts thread t0.user_id t0.channel_id
    t0.prompt resp kw hfresh hdl hmodel hpost hsave hkw hlog
  refine ⟨h.1, ?_⟩
  simp only [runLifetime, lifetimeAudits, List.map_cons, List.sum_cons]
  rw [h.1]
  have h0 := lifetime_audits_existing thread rest _ h.2.2
  simp only [lifetimeAudits] at h0
  rw [h0]

theorem C6_witness :
    countAudits (generate_response okEnv [] (some "100") (some "100")
      (some "U1") (some "C1") (some "hi")).trace = 1 ∧
    lifetimeAudits (runLifetime (some "100") [] [wTurn1, wTurn2]) = 1 :=
  C6_first_turn_audit [] (some "100") wTurn1 [wTurn2]
    ⟨"hello *world*", false, [⟨"user", "hi"⟩, ⟨"bot", "hello"⟩]⟩ "kw"
    rfl rfl rfl rfl rfl rfl rfl

/-- Claim C7: the conversation-thread identifier used by the pipeline is
the event's `thread_ts` when present and the event's own `ts` when
absent, and the handler invokes the pipeline with exactly that
identifier. -/
theorem C7_thread_identifier (env : Env) (store : Store)
    (pld : SlackPayload) :
    handle_incoming_message env store pld =
      generate_response env store pld.ts
        (conversation_thread_of pld.ts pld.thread_ts)
        pld.user pld.channel pld.text ∧
    (∀ t, pld.thread_ts = some t →
      conversation_thread_of pld.ts pld.thread_ts = some t) ∧
    (pld.thread_ts = none →
      conversation_thread_of pld.ts pld.thread_ts = pld.ts) := by
  refine ⟨rfl, ?_, ?_⟩
  · intro t ht
    rw [ht]
    rfl
  · intro ht
    rw [ht]
    rfl

theorem C7_witness :
    conversation_thread_of (some "200") (some "100") = some "100" ∧
    conversation_thread_of (some "200") none = some "200" :=
  ⟨(C7_thread_identifier okEnv []
      ⟨some "C1", some "U1", some "hi", some "200", some "100"⟩).2.1 "100" rfl,
   (C7_thread_identifier okEnv []
      ⟨some "C1", some "U1", some "hi", some "200", none⟩).2.2 rfl⟩

/-- Claim C8: the record blob is named deterministically as the thread
identifier followed by `.pkl`; the save at the end of a run writes to the
same blob name the load read, and the persisted record is retrievable
(and deserializable) under that name afterwards. -/
theorem C8_blob_naming_roundtrip (env : Env) (store : Store)
    (ts thread u c p : Option String) (hist : List ChatMessage)
    (resp : CompletionResponse)
    (hdl : env.downloadFails = false)
    (hload : loadHistory (store.lookup (pyFString thread ++ ".pkl")) =
      Except.ok hist)
    (hmodel : env.model hist p = Except.ok resp)
    (hpost : env.postFails = false)
    (hsave : env.saveFails = false) :
    Event.download HISTORICAL_CHAT_BUCKET_NAME (pyFString thread ++ ".pkl") ∈
      (generate_response env store ts thread u c p).trace ∧
    Event.save HISTORICAL_CHAT_BUCKET_NAME (pyFString thread ++ ".pkl")
        "dummy_metadata_chat" resp.message_history ∈
      (generate_response env store ts thread u c p).trace ∧
    (generate_response env store ts thread u c p).store.lookup
        (pyFString thread ++ ".pkl") =
      some (pickleDumps ⟨"dummy_metadata_chat", resp.message_history⟩) ∧
    pickleLoads (pickleDumps ⟨"dummy_metadata_chat", resp.message_history⟩) =
      some ⟨"dummy_metadata_chat", resp.message_history⟩ := by
  have s := save_spec env store ts thread u c p hist resp
    hdl hload hmodel hpost hsave
  refine ⟨download_mem env store ts thread u c p, s.2, ?_,
    pickleLoads_pickleDumps _⟩
  rw [s.1]
  exact lookup_storeSave store _ _

theorem C8_witness :
    Event.download HISTORICAL_CHAT_BUCKET_NAME
        (pyFString (some "100") ++ ".pkl") ∈ demoOkRun.trace ∧
    Event.save HISTORICAL_CHAT_BUCKET_NAME (pyFString (some "100") ++ ".pkl")
        "dummy_metadata_chat" [⟨"user", "hi"⟩, ⟨"bot", "hello"⟩] ∈
      demoOkRun.trace ∧
    demoOkRun.store.lookup (pyFString (some "100") ++ ".pkl") =
      some (pickleDumps ⟨"dummy_metadata_chat",
        [⟨"user", "hi"⟩, ⟨"bot", "hello"⟩]⟩) ∧
    pickleLoads (pickleDumps ⟨"dummy_metadata_chat",
        [⟨"user", "hi"⟩, ⟨"bot", "hello"⟩]⟩) =
      some ⟨"dummy_metadata_chat", [⟨"user", "hi"⟩, ⟨"bot", "hello"⟩]⟩ :=
  C8_blob_naming_roundtrip okEnv [] (some "100") (some "100") (some "U1")
    (some "C1") (some "hi") []
    ⟨"hello *world*", false, [⟨"user", "hi"⟩, ⟨"bot", "hello"⟩]⟩
    rfl rfl rfl rfl rfl

end PalmChat

namespace PalmChat

/-- Claim C9: no failure of the storage, completion-service,
platform-post, or audit (keyword/log) steps is caught inside the
workflow: whichever step raises, the run ends with exactly that uncaught
error, the trace stops at the failing call (all remaining steps
aborted), and nothing already done is rolled back — in particular, when
the save fails the post has already been made while the store is left
unchanged. -/
theorem C9_failure_aborts_no_rollback (env : Env) (store : Store)
    (ts thread u c p : Option String) :
    (env.downloadFails = true →
      (generate_response env store ts thread u c p).error =
        some PipelineError.storageUnavailable ∧
      (generate_response env store ts thread u c p).store = store ∧
      (generate_response env store ts thread u c p).trace =
        [Event.download HISTORICAL_CHAT_BUCKET_NAME
          (pyFString thread ++ ".pkl")]) ∧
    (∀ (hist : List ChatMessage) (e : Unit),
      env.downloadFails = false →
      loadHistory (store.lookup (pyFString thread ++ ".pkl")) =
        Except.ok hist →
      env.model hist p = Except.error e →
      (generate_response env store ts thread u c p).error =
        some PipelineError.completionServiceError ∧
      (generate_response env store ts thread u c p).store = store ∧
      (generate_response env store ts thread u c p).trace =
        [Event.download HISTORICAL_CHAT_BUCKET_NAME (pyFString thread ++ ".pkl"),
         Event.modelCall hist p]) ∧
    (∀ (hist : List ChatMessage) (resp : CompletionResponse),
      env.downloadFails = false →
      loadHistory (store.lookup (pyFString thread ++ ".pkl")) =
        Except.ok hist →
      env.model hist p = Except.ok resp →
      env.postFails = true →
      (generate_response env store ts thread u c p).error =
        some PipelineError.deliveryError ∧
      (generate_response env store ts thread u c p).store = store ∧
      (generate_response env store ts thread u c p).trace =
        [Event.download HISTORICAL_CHAT_BUCKET_NAME (pyFString thread ++ ".pkl"),
         Event.modelCall hist p,
         Event.post c ts (compute_payload resp)]) ∧
    (∀ (hist : List ChatMessage) (resp : CompletionResponse),
      env.downloadFails = false →
      loadHistory (store.lookup (pyFString thread ++ ".pkl")) =
        Except.ok hist →
      env.model hist p = Except.ok resp →
      env.postFails = false →
      env.saveFails = true →
      (generate_response env store ts thread u c p).error =
        some PipelineError.storageUnavailable ∧
      (generate_response env store ts thread u c p).store = store ∧
      Event.post c ts (compute_payload resp) ∈
        (generate_response env store ts thread u c p).trace ∧
      (generate_response env store ts thread u c p).trace =
        [Event.download HISTORICAL_CHAT_BUCKET_NAME (pyFString thread ++ ".pkl"),
         Event.modelCall hist p,
         Event.post c ts (compute_payload resp),
         Event.save HISTORICAL_CHAT_BUCKET_NAME (pyFString thread ++ ".pkl")
           "dummy_metadata_chat" resp.message_history]) ∧
    (∀ (resp : CompletionResponse) (e : Unit),
      store.lookup (pyFString thread ++ ".pkl") = none →
      env.downloadFails = false →
      env.model [] p = Except.ok resp →
      env.postFails = false →
      env.saveFails = false →
      env.keyword p = Except.error e →
      (generate_response env store ts thread u c p).error =
        some PipelineError.keywordError ∧
      (generate_response env store ts thread u c p).store =
        storeSave store (pyFString thread ++ ".pkl")
          (pickleDumps ⟨"dummy_metadata_chat", resp.message_history⟩) ∧
      (generate_response env store ts thread u c p).trace =
        [Event.download HISTORICAL_CHAT_BUCKET_NAME (pyFString thread ++ ".pkl"),
         Event.modelCall [] p,
         Event.post c ts (compute_payload resp),
         Event.save HISTORICAL_CHAT_BUCKET_NAME (pyFString thread ++ ".pkl")
           "dummy_metadata_chat" resp.message_history,
         Event.keywordCall p]) ∧
    (∀ (resp : CompletionResponse) (kw : String),
      store.lookup (pyFString thread ++ ".pkl") = none →
      env.downloadFails = false →
      env.model [] p = Except.ok resp →
      env.postFails = false →
      env.saveFails = false →
      env.keyword p = Except.ok kw →
      env.logFails = true →
      (generate_response env store ts thread u c p).error =
        some PipelineError.logError ∧
      (generate_response env store ts thread u c p).store =
        storeSave store (pyFString thread ++ ".pkl")
          (pickleDumps ⟨"dummy_metadata_chat", resp.message_history⟩) ∧
      (generate_response env store ts thread u c p).trace =
        [Event.download HISTORICAL_CHAT_BUCKET_NAME (pyFString thread ++ ".pkl"),
         Event.modelCall [] p,
         Event.post c ts (compute_payload resp),
         Event.save HISTORICAL_CHAT_BUCKET_NAME (pyFString thread ++ ".pkl")
           "dummy_metadata_chat" resp.message_history,
         Event.keywordCall p,
         Event.auditLog u p (compute_payload resp) kw]) := by
  refine ⟨?_, ?_, ?_, ?_, ?_, ?_⟩
  · intro h1
    simp [generate_response, h1]
  · intro hist e hdl hload hm
    unfold generate_response
    simp only [hdl, Bool.false_eq_true, if_false, hload, hm]
    simp
  · intro hist resp hdl hload hm hpost
    unfold generate_response
    simp only [hdl, Bool.false_eq_true, if_false, hload, hm, hpost, if_true]
    simp
  · intro hist resp hdl hload hm hpost hsave
    unfold generate_response
    simp only [hdl, hpost, Bool.false_eq_true, if_false, hload, hm, hsave,
      if_true]
    simp
  · intro resp e hfresh hdl hm hpost hsave hkw
    unfold generate_response
    simp only [hfresh, hdl, hpost, hsave, Bool.false_eq_true, if_false,
      loadHistory, hm, hkw, Option.isSome_none]
    simp
  · intro resp kw hfresh hdl hm hpost hsave hkw hlog
    unfold generate_response
    simp only [hfresh, hdl, hpost, hsave, hlog, Bool.false_eq_true, if_false,
      loadHistory, hm, hkw, Option.isSome_none, if_true]
    simp

theorem C9_witness :
    (generate_response dlFailEnv [] (some "100") (some "100") (some "U1")
      (some "C1") (some "hi")).error = some PipelineError.storageUnavailable ∧
    (generate_response modelFailEnv [] (some "100") (some "100") (some "U1")
      (some "C1") (some "hi")).error =
      some PipelineError.completionServiceError ∧
    (generate_response postFailEnv [] (some "100") (some "100") (some "U1")
      (some "C1") (some "hi")).error = some PipelineError.deliveryError ∧
    ((generate_response saveFailEnv [] (some "100") (some "100") (some "U1")
        (some "C1") (some "hi")).error =
        some PipelineError.storageUnavailable ∧
      Event.post (some "C1") (some "100")
          (compute_payload ⟨"hello *world*", false,
            [⟨"user", "hi"⟩, ⟨"bot", "hello"⟩]⟩) ∈
        (generate_response saveFailEnv [] (some "100") (some "100")
          (some "U1") (some "C1") (some "hi")).trace ∧
      (generate_response saveFailEnv [] (some "100") (some "100") (some "U1")
        (some "C1") (some "hi")).store = []) ∧
    (generate_response kwFailEnv [] (some "100") (some "100") (some "U1")
      (some "C1") (some "hi")).error = some PipelineError.keywordError ∧
    (generate_response logFailEnv [] (some "100") (some "100") (some "U1")
      (some "C1") (some "hi")).error = some PipelineError.logError := by
  refine ⟨?_, ?_, ?_, ?_, ?_, ?_⟩
  · exact ((C9_failure_aborts_no_rollback dlFailEnv [] (some "100")
      (some "100") (some "U1") (some "C1") (some "hi")).1 rfl).1
  · exact ((C9_failure_aborts_no_rollback modelFailEnv [] (some "100")
      (some "100") (some "U1") (some "C1") (some "hi")).2.1 [] () rfl rfl
      rfl).1
  · exact ((C9_failure_aborts_no_rollback postFailEnv [] (some "100")
      (some "100") (some "U1") (some "C1") (some "hi")).2.2.1 []
      ⟨"hello *world*", false, [⟨"user", "hi"⟩, ⟨"bot", "hello"⟩]⟩
      rfl rfl rfl rfl).1
  · have h := (C9_failure_aborts_no_rollback saveFailEnv [] (some "100")
      (some "100") (some "U1") (some "C1") (some "hi")).2.2.2.1 []
      ⟨"hello *world*", false, [⟨"user", "hi"⟩, ⟨"bot", "hello"⟩]⟩
      rfl rfl rfl rfl rfl
    exact ⟨h.1, h.2.2.1, h.2.1⟩
  · exact ((C9_failure_aborts_no_rollback kwFailEnv [] (some "100")
      (some "100") (some "U1") (some "C1") (some "hi")).2.2.2.2.1
      ⟨"hello *world*", false, [⟨"user", "hi"⟩, ⟨"bot", "hello"⟩]⟩ ()
      rfl rfl rfl rfl rfl rfl).1
  · exact ((C9_failure_aborts_no_rollback logFailEnv [] (some "100")
      (some "100") (some "U1") (some "C1") (some "hi")).2.2.2.2.2
      ⟨"hello *world*", false, [⟨"user", "hi"⟩, ⟨"bot", "hello"⟩]⟩ "kw"
      rfl rfl rfl rfl rfl rfl rfl).1

/-- Claim C10: the message handler runs the full pipeline for every
incoming event without filtering on user or channel — despite its
docstring — so any payload, including one whose fields are all missing,
triggers a model call and a platform post. -/
theorem C10_no_event_filtering (env : Env) (store : Store)
    (pld : SlackPayload) (hist : List ChatMessage)
    (resp : CompletionResponse)
    (hdl : env.downloadFails = false)
    (hload : loadHistory (store.lookup
      (pyFString (conversation_thread_of pld.ts pld.thread_ts) ++ ".pkl")) =
      Except.ok hist)
    (hmodel : env.model hist pld.text = Except.ok resp) :
    Event.modelCall hist pld.text ∈
      (handle_incoming_message env store pld).trace ∧
    Event.post pld.channel pld.ts (compute_payload resp) ∈
      (handle_incoming_message env store pld).trace := by
  exact ⟨modelCall_mem env store pld.ts
      (conversation_thread_of pld.ts pld.thread_ts)
      pld.user pld.channel pld.text hist hdl hload,
    post_mem env store pld.ts (conversation_thread_of pld.ts pld.thread_ts)
      pld.user pld.channel pld.text hist resp hdl hload hmodel⟩

theorem C10_witness :
    Event.modelCall [] none ∈ (handle_incoming_message okEnv [] noneP).trace ∧
    Event.post none none
        (compute_payload ⟨"hello *world*", false,
          [⟨"user", "None"⟩, ⟨"bot", "hello"⟩]⟩) ∈
      (handle_incoming_message okEnv [] noneP).trace :=
  C10_no_event_filtering okEnv [] noneP []
    ⟨"hello *world*", false, [⟨"user", "None"⟩, ⟨"bot", "hello"⟩]⟩
    rfl rfl rfl

end PalmChat
